import Mathlib

/-!
Verification of the client-side session service (`src/sidebar/session.js`)
and the OAuth token service bundled with it.

The JavaScript is embedded shallowly: the mutable service state becomes an
explicit state record, asynchronous tasks (promises) become entries of a task
list whose index plays the role of the promise's identity, and wall-clock /
monotonic clock reads become explicit `now : Nat` parameters (milliseconds).
The retry-with-backoff wrapper around the session fetch is treated as a black
box: one fetch task that either eventually succeeds or finally fails.
Collaborators (event bus via $rootScope.$broadcast, auth.clearCache, raven,
flash) are modelled as logs / counters inside the state.
-/

namespace Client

/-- A group, as carried in the session model (`angular.equals` on arrays of
such records is deep, order-sensitive value equality, which for records of
strings coincides with structural equality). -/
structure SGroup where
  id : String
  name : String
deriving DecidableEq, Repr

/-- The session model stored in `annotationUI` and passed to `update`.
Absent JSON fields are `none`; `data.model || {}` yields the record with
every field absent. -/
structure SessionModel where
  userid : Option String := none
  csrf : Option String := none
  groups : Option (List SGroup) := none
  errors : Option (List String) := none
  reason : Option String := none
deriving DecidableEq, Repr

/-- `{}` — the empty session model used when the response has no `model`. -/
def emptySessionModel : SessionModel := {}

/-- Status of one fetch task (`lastLoad`-style promise chains). -/
inductive TaskStatus where
  | pending
  | resolved (m : SessionModel)
  | rejected
deriving DecidableEq, Repr

def TaskStatus.isPending : TaskStatus → Bool
  | .pending => true
  | _ => false

/-- Events broadcast on `$rootScope`. -/
inductive SEvent where
  | userChanged (initialLoad : Bool) (userid : Option String)
  | groupsChanged (initialLoad : Bool)
deriving DecidableEq, Repr

def SEvent.isUserChanged : SEvent → Bool
  | .userChanged _ _ => true
  | _ => false

def SEvent.isGroupsChanged : SEvent → Bool
  | .groupsChanged _ => true
  | _ => false

/-- Construction-time configuration of the session service: the authority of
the first configured service (if any) and `$http.defaults.xsrfHeaderName`. -/
structure Config where
  authority : Option String
  xsrfHeaderName : String
deriving DecidableEq, Repr

/-- Whole state of the session service: the session slice of the store
(`annotationUI.getState().session`), the shared `headers` object, the cache
variables `lastLoadTime` / `lastLoad` (the latter as an index into `tasks`),
the list of all fetch tasks ever created, and collaborator logs. -/
structure SessState where
  session : SessionModel
  headers : List (String × String)
  lastLoadTime : Option Nat
  lastLoad : Option Nat
  tasks : List TaskStatus
  events : List SEvent
  authClearCount : Nat
  ravenUser : Option String
  flashes : List (String × String)
deriving DecidableEq, Repr

/-- The state at service construction: empty store session, empty headers,
no cache, no tasks, nothing logged. -/
def initState : SessState :=
  { session := emptySessionModel
    headers := []
    lastLoadTime := none
    lastLoad := none
    tasks := []
    events := []
    authClearCount := 0
    ravenUser := none
    flashes := [] }

/-- `headers[name] = val` on a JavaScript object, as an association list:
replace the entry if the key exists, otherwise append it. -/
def setHeader (nm v : String) : List (String × String) → List (String × String)
  | [] => [(nm, v)]
  | (k, w) :: rest => if k = nm then (k, v) :: rest else (k, w) :: setHeader nm v rest

/-- Read a header entry. -/
def getHeader (nm : String) : List (String × String) → Option String
  | [] => none
  | (k, w) :: rest => if k = nm then some w else getHeader nm rest

/-- `CACHE_TTL = 5 * 60 * 1000` (ms). -/
def CACHE_TTL : Nat := 5 * 60 * 1000

/-- `session.update(model)` (session.js lines 128-175). Returns the model and
the new service state. Mirrors the source step by step: read previous
session, compute `isInitialLoad` / `userChanged` / `groupsChanged`, write the
model into the store, set the CSRF header when the model carries a token,
replace `lastLoad` with an already-resolved task and stamp `lastLoadTime`,
then emit events and collaborator calls. -/
def update (cfg : Config) (model : SessionModel) (now : Nat) (s : SessState) :
    SessionModel × SessState :=
  let prevSession := s.session
  let isInitialLoad : Bool := prevSession.csrf.isNone
  let s1 : SessState := { s with session := model }
  let s2 : SessState :=
    match model.csrf with
    | some c => { s1 with headers := setHeader cfg.xsrfHeaderName c s1.headers }
    | none => s1
  let s3 : SessState :=
    { s2 with
      tasks := s2.tasks ++ [TaskStatus.resolved model]
      lastLoad := some s2.tasks.length
      lastLoadTime := some now }
  let s4 : SessState :=
    if model.userid = prevSession.userid then s3
    else
      let sa : SessState :=
        if cfg.authority.isNone then { s3 with authClearCount := s3.authClearCount + 1 } else s3
      { sa with
        events := sa.events ++ [SEvent.userChanged isInitialLoad model.userid]
        ravenUser := model.userid }
  let s5 : SessState :=
    if model.groups = prevSession.groups then s4
    else { s4 with events := s4.events ++ [SEvent.groupsChanged isInitialLoad] }
  (model, s5)

/-- `session.load()` (session.js lines 82-107). Returns the task handed to
the caller (`none` stands for JavaScript `undefined`) and the new state. A
new fetch task is started when no `lastLoadTime` is recorded or the elapsed
time strictly exceeds `CACHE_TTL`; otherwise the cached `lastLoad` task is
returned unchanged. Starting a fetch stamps `lastLoadTime := now` before the
fetch runs. `startFetch` is that fetch-starting branch. -/
def startFetch (now : Nat) (s : SessState) : Option Nat × SessState :=
  (some s.tasks.length,
    { s with
      tasks := s.tasks ++ [TaskStatus.pending]
      lastLoad := some s.tasks.length
      lastLoadTime := some now })

def load (now : Nat) (s : SessState) : Option Nat × SessState :=
  match s.lastLoadTime with
  | none => startFetch now s
  | some t => if CACHE_TTL < now - t then startFetch now s else (s.lastLoad, s)

/-- Settlement of fetch task `id` with a successful session model `m` at time
`now`: the response flows through `update` (either via the profile read's
`.then(update)` or via the `transformResponse` hook), the task resolves with
`m`, and the outer `.then` stamps `lastLoadTime := Date.now()` again. -/
def fetchSuccess (cfg : Config) (id : Nat) (m : SessionModel) (now : Nat)
    (s : SessState) : SessState :=
  let s1 := (update cfg m now s).2
  let s2 := { s1 with tasks := s1.tasks.set id (TaskStatus.resolved m) }
  { s2 with lastLoadTime := some now }

/-- Final failure of fetch task `id` (retries exhausted): the `.catch`
handler clears `lastLoadTime` and rethrows, so the task rejects for every
caller holding it. Nothing else — in particular not the store session — is
touched. -/
def fetchFail (id : Nat) (s : SessState) : SessState :=
  { s with
    tasks := s.tasks.set id TaskStatus.rejected
    lastLoadTime := none }

/-- Raw response data after JSON parsing, as consumed by `process`:
an optional `model`, optional `errors` / `reason`, and a `flash` mapping in
object-insertion order ([] for an absent `flash`). -/
structure RespData where
  model : Option SessionModel := none
  errors : Option (List String) := none
  reason : Option String := none
  flash : List (String × List String) := []
deriving DecidableEq, Repr

/-- The model lifted out of a response: `data.model || {}`, with `errors`
and `reason` copied onto it when present. -/
def liftModel (d : RespData) : SessionModel :=
  let m := d.model.getD emptySessionModel
  let m :=
    match d.errors with
    | some e => { m with errors := some e }
    | none => m
  match d.reason with
  | some r => { m with reason := some r }
  | none => m

/-- The flash messages of a response flattened in dispatch order: kinds in
object order, messages of one kind in sequence order. -/
def flashSeq (flash : List (String × List String)) : List (String × String) :=
  (flash.map fun p => p.2.map fun m => (p.1, m)).flatten

/-- `process(data, headersGetter, status)` (session.js lines 177-204): `none`
for status outside `[200, 500)`; otherwise lift the model, fire the flash
messages in order, and pass the model through `update`, returning its
result. -/
def process (cfg : Config) (d : RespData) (status : Nat) (now : Nat)
    (s : SessState) : Option SessionModel × SessState :=
  if status < 200 ∨ 500 ≤ status then (none, s)
  else
    let model := liftModel d
    let s1 := { s with flashes := s.flashes ++ flashSeq d.flash }
    let r := update cfg model now s1
    (some r.1, r.2)

/-- `logout()` success path (session.js lines 206-213): the response is
transformed through `process`, then `auth.clearCache()` is called. Angular
resolves the action promise only for 2xx statuses. -/
def logoutSuccess (cfg : Config) (d : RespData) (status : Nat) (now : Nat)
    (s : SessState) : SessState :=
  let s1 := (process cfg d status now s).2
  { s1 with authClearCount := s1.authClearCount + 1 }

/-- `logout()` transport-failure path (network error or 5xx, where `process`
returns `null` and the promise rejects): the `.catch` handler flashes
`'Log out failed'` and rethrows. No cache variable is touched. -/
def logoutFail (s : SessState) : SessState :=
  { s with flashes := s.flashes ++ [("error", "Log out failed")] }

/-- `dismissSidebarTutorial()` success (session.js lines 115-117): the
profile update's resulting model is fed through `update`. -/
def dismissSuccess (cfg : Config) (m : SessionModel) (now : Nat)
    (s : SessState) : SessState :=
  (update cfg m now s).2

/-- The operations of the session service, for frame/invariant statements
quantified over everything the service can do. -/
inductive Op where
  | opLoad (now : Nat)
  | opFetchSuccess (id : Nat) (m : SessionModel) (now : Nat)
  | opFetchFail (id : Nat)
  | opUpdate (m : SessionModel) (now : Nat)
  | opProcess (d : RespData) (status : Nat) (now : Nat)
  | opLogoutSuccess (d : RespData) (status : Nat) (now : Nat)
  | opLogoutFail
  | opDismissSuccess (m : SessionModel) (now : Nat)
deriving DecidableEq, Repr

def applyOp (cfg : Config) : Op → SessState → SessState
  | .opLoad now, s => (load now s).2
  | .opFetchSuccess id m now, s => fetchSuccess cfg id m now s
  | .opFetchFail id, s => fetchFail id s
  | .opUpdate m now, s => (update cfg m now s).2
  | .opProcess d status now, s => (process cfg d status now s).2
  | .opLogoutSuccess d status now, s => logoutSuccess cfg d status now s
  | .opLogoutFail, s => logoutFail s
  | .opDismissSuccess m now, s => dismissSuccess cfg m now s

/-- The CSRF token an operation hands to `update`, if any: only operations
whose model carries a `csrf` field can touch the header map. -/
def opCsrf : Op → Option String
  | .opFetchSuccess _ m _ => m.csrf
  | .opUpdate m _ => m.csrf
  | .opDismissSuccess m _ => m.csrf
  | .opProcess d status _ =>
      if status < 200 ∨ 500 ≤ status then none else (liftModel d).csrf
  | .opLogoutSuccess d status _ =>
      if status < 200 ∨ 500 ≤ status then none else (liftModel d).csrf
  | _ => none

/-- Number of fetch tasks currently in flight. -/
def pendingCount (s : SessState) : Nat :=
  (s.tasks.filter TaskStatus.isPending).length

/-- A sequence of `load()` calls at the given times, collecting the task
each caller receives. -/
def loadAll (ts : List Nat) (s : SessState) : List (Option Nat) × SessState :=
  match ts with
  | [] => ([], s)
  | now :: rest =>
    let r := load now s
    let rs := loadAll rest r.2
    (r.1 :: rs.1, rs.2)

/-! ## The OAuth token service (`auth.js`) -/

/-- Construction-time configuration of the token service: the grant token of
the first configured service, if any. -/
structure AuthConfig where
  grantToken : Option String
deriving DecidableEq, Repr

/-- `cachedToken` — token string plus monotonic expiry time (ms). -/
structure CachedToken where
  token : String
  expiresAt : Nat
deriving DecidableEq, Repr

/-- State of the token service: the cached token and a count of exchange
requests issued (the network-call meter). -/
structure AuthState where
  cachedToken : Option CachedToken
  exchangeCount : Nat
deriving DecidableEq, Repr

def initAuthState : AuthState := { cachedToken := none, exchangeCount := 0 }

/-- Body of a successful token-endpoint response. -/
structure TokenInfo where
  access_token : String
  expires_in : Nat
deriving DecidableEq, Repr

/-- What a `tokenGetter()` call does immediately: resolve with the cached
token, start an exchange whose `refreshStart` is the call time, or resolve
with `null`. -/
inductive TokenResult where
  | cached (token : String)
  | startExchange (refreshStart : Nat)
  | nullToken
deriving DecidableEq, Repr

/-- The no-cache branch of `tokenGetter`: start an exchange when a grant
token is configured, else resolve `null`. -/
def tokenGetterUncached (now : Nat) (cfg : AuthConfig) (st : AuthState) :
    TokenResult × AuthState :=
  match cfg.grantToken with
  | some _ => (TokenResult.startExchange now, { st with exchangeCount := st.exchangeCount + 1 })
  | none => (TokenResult.nullToken, st)

/-- `tokenGetter()` (auth.js lines 275-292): serve the cached token while
`cachedToken.expiresAt > performance.now()`, otherwise fall through to the
exchange / null branch. -/
def tokenGetter (now : Nat) (cfg : AuthConfig) (st : AuthState) :
    TokenResult × AuthState :=
  match st.cachedToken with
  | some ct =>
    if now < ct.expiresAt then (TokenResult.cached ct.token, st)
    else tokenGetterUncached now cfg st
  | none => tokenGetterUncached now cfg st

/-- Settlement of an exchange started at monotonic time `refreshStart`, given
the response status and body (auth.js lines 258-292): a non-200 status throws
`'Failed to retrieve access token'` and leaves the state untouched; on 200
the token is cached with `expiresAt = refreshStart + expires_in * 1000`.
Note the settlement time plays no role: `expiresAt` depends only on
`refreshStart`, sampled before the request was issued. -/
def exchangeSettle (refreshStart : Nat) (status : Nat) (data : TokenInfo)
    (st : AuthState) : Except String String × AuthState :=
  if status ≠ 200 then (Except.error "Failed to retrieve access token", st)
  else
    let ct : CachedToken :=
      { token := data.access_token, expiresAt := refreshStart + data.expires_in * 1000 }
    (Except.ok ct.token, { st with cachedToken := some ct })

/-! ## Concrete instances used by witnesses and counterexamples -/

def cfgEx : Config := { authority := none, xsrfHeaderName := "X-XSRF-TOKEN" }

def cfgExAuthority : Config :=
  { authority := some "publisher.org", xsrfHeaderName := "X-XSRF-TOKEN" }

def authCfgEx : AuthConfig := { grantToken := some "grant-jwt" }

/-- A state with a warm cache: one resolved fetch at time 5. -/
def sWarm : SessState :=
  { initState with
    session := { userid := some "acct:u1", csrf := some "tok0" }
    lastLoadTime := some 5
    lastLoad := some 0
    tasks := [TaskStatus.resolved emptySessionModel] }

def mEx : SessionModel :=
  { userid := some "acct:u2", csrf := some "tok1", groups := some [⟨"g1", "Group 1"⟩] }

/-- A state whose stored session carries the groups `[g1, g2]`. -/
def sGroups : SessState :=
  { initState with
    session :=
      { userid := some "acct:u1"
        csrf := some "tok0"
        groups := some [⟨"g1", "One"⟩, ⟨"g2", "Two"⟩] } }

/-- Same user and value-equal groups in the same order as `sGroups`. -/
def mGroupsSame : SessionModel :=
  { userid := some "acct:u1", groups := some [⟨"g1", "One"⟩, ⟨"g2", "Two"⟩] }

/-- Same user, same group elements in reversed order. -/
def mGroupsReord : SessionModel :=
  { userid := some "acct:u1", groups := some [⟨"g2", "Two"⟩, ⟨"g1", "One"⟩] }

/-! ## Helper lemmas -/

theorem getHeader_setHeader_self (nm v : String) (h : List (String × String)) :
    getHeader nm (setHeader nm v h) = some v := by
  induction h with
  | nil => simp [setHeader, getHeader]
  | cons kv rest ih =>
    obtain ⟨k, w⟩ := kv
    by_cases hk : k = nm <;> simp [setHeader, getHeader, hk, ih]

theorem getHeader_setHeader_ne (nm nm' v : String) (h : List (String × String))
    (hne : nm' ≠ nm) : getHeader nm' (setHeader nm v h) = getHeader nm' h := by
  induction h with
  | nil => simp [setHeader, getHeader, Ne.symm hne]
  | cons kv rest ih =>
    obtain ⟨k, w⟩ := kv
    by_cases hk : k = nm <;> by_cases hk' : k = nm' <;>
      simp_all [setHeader, getHeader]

/-- Full characterization of `update` as a record transformation; every claim
about `update` reads off one of these fields. -/
theorem update_eq (cfg : Config) (m : SessionModel) (now : Nat) (s : SessState) :
    update cfg m now s =
      (m,
        { session := m
          headers :=
            match m.csrf with
            | some c => setHeader cfg.xsrfHeaderName c s.headers
            | none => s.headers
          lastLoadTime := some now
          lastLoad := some s.tasks.length
          tasks := s.tasks ++ [TaskStatus.resolved m]
          events :=
            s.events ++
              (if m.userid = s.session.userid then []
               else [SEvent.userChanged s.session.csrf.isNone m.userid]) ++
              (if m.groups = s.session.groups then []
               else [SEvent.groupsChanged s.session.csrf.isNone])
          authClearCount :=
            s.authClearCount +
              (if m.userid ≠ s.session.userid ∧ cfg.authority = none then 1 else 0)
          ravenUser := if m.userid = s.session.userid then s.ravenUser else m.userid
          flashes := s.flashes }) := by
  unfold update
  rcases hc : m.csrf with _ | c <;>
  rcases ha : cfg.authority with _ | a <;>
  by_cases h1 : m.userid = s.session.userid <;>
  by_cases h2 : m.groups = s.session.groups <;>
  simp [hc, ha, h1, h2]

theorem load_cached (now t : Nat) (s : SessState)
    (ht : s.lastLoadTime = some t) (hle : now - t ≤ CACHE_TTL) :
    load now s = (s.lastLoad, s) := by
  simp [load, ht, Nat.not_lt.mpr hle]

theorem load_fresh_none (now : Nat) (s : SessState) (h : s.lastLoadTime = none) :
    load now s = startFetch now s := by
  simp [load, h]

theorem load_fresh_stale (now t : Nat) (s : SessState)
    (ht : s.lastLoadTime = some t) (hlt : CACHE_TTL < now - t) :
    load now s = startFetch now s := by
  simp [load, ht, hlt]

/-- Any number of `load()` calls against a warm cache entry (all within
`CACHE_TTL` of its timestamp) return the cached task and leave the state
untouched. -/
theorem loadAll_within (t id : Nat) (ts : List Nat) (s : SessState)
    (ht : s.lastLoadTime = some t) (hl : s.lastLoad = some id)
    (hts : ∀ u ∈ ts, u - t ≤ CACHE_TTL) :
    loadAll ts s = (ts.map fun _ => some id, s) := by
  induction ts with
  | nil => simp [loadAll]
  | cons u rest ih =>
    have h1 : load u s = (s.lastLoad, s) := load_cached u t s ht (hts u (by simp))
    simp [loadAll, h1, hl, ih fun v hv => hts v (by simp [hv])]

/-! ## Claim theorems -/

/-- C1: a `load()` call while a fetch/update timestamp is recorded and the
elapsed time is at most `CACHE_TTL = 300000` ms returns the cached task and
changes nothing (so no new fetch is started); a new fetch task is started
exactly when no timestamp is recorded or the elapsed time strictly exceeds
the TTL; and every `update()` call stamps `lastLoadTime` with the current
time, restarting the TTL window. -/
theorem c1_load_ttl (cfg : Config) (s : SessState) (now : Nat) :
    (∀ t, s.lastLoadTime = some t → now - t ≤ CACHE_TTL →
      load now s = (s.lastLoad, s)) ∧
    ((s.lastLoadTime = none ∨ ∃ t, s.lastLoadTime = some t ∧ CACHE_TTL < now - t) →
      load now s = startFetch now s ∧
      (load now s).2.tasks = s.tasks ++ [TaskStatus.pending] ∧
      (load now s).1 = some s.tasks.length ∧
      (load now s).2.lastLoadTime = some now) ∧
    (∀ m, ((update cfg m now s).2).lastLoadTime = some now) := by
  refine ⟨fun t ht hle => load_cached now t s ht hle, ?_, fun m => by simp [update_eq]⟩
  rintro (h | ⟨t, ht, hlt⟩)
  · simp [load_fresh_none now s h, startFetch]
  · simp [load_fresh_stale now t s ht hlt, startFetch]

/-- Witness for C1 at concrete inputs: a warm cache hit at `now = 20`
(timestamp 5), a stale miss at `now = 9999999`, and an `update` stamping the
timestamp. -/
theorem c1_witness :
    load 20 sWarm = (sWarm.lastLoad, sWarm) ∧
    load 9999999 sWarm = startFetch 9999999 sWarm ∧
    ((update cfgEx mEx 20 sWarm).2).lastLoadTime = some 20 := by
  refine ⟨(c1_load_ttl cfgEx sWarm 20).1 5 rfl (by decide), ?_,
    (c1_load_ttl cfgEx sWarm 20).2.2 mEx⟩
  exact ((c1_load_ttl cfgEx sWarm 9999999).2.1 (Or.inr ⟨5, rfl, by decide⟩)).1

/-- C2 (amended): single-flight holds for calls within the TTL window of the
fetch's start: a `load()` from a cold cache starts exactly one fetch task,
and every further `load()` whose time is within `CACHE_TTL` of the first
call's time returns that same task and starts nothing new, so all such
callers settle with that one task. (The unamended claim — at most one fetch
in flight at every point — fails when a fetch outlives the TTL, see the
counterexample.) -/
theorem c2_single_flight (s : SessState) (t0 : Nat) (ts : List Nat)
    (h0 : s.lastLoadTime = none)
    (hts : ∀ u ∈ ts, u - t0 ≤ CACHE_TTL) :
    (load t0 s).2.tasks.length = s.tasks.length + 1 ∧
    (load t0 s).1 = some s.tasks.length ∧
    loadAll ts (load t0 s).2 = (ts.map fun _ => some s.tasks.length, (load t0 s).2) := by
  have h1 : load t0 s = startFetch t0 s := load_fresh_none t0 s h0
  refine ⟨by simp [h1, startFetch], by simp [h1, startFetch], ?_⟩
  rw [h1]
  exact loadAll_within t0 s.tasks.length ts (startFetch t0 s).2 (by simp [startFetch])
    (by simp [startFetch]) hts

/-- Witness for C2 (amended): from the initial state, a cold `load()` at time
0 followed by loads at times 1, 2 and 300000 all yield task 0 and leave the
state where the first call put it. -/
theorem c2_witness :
    (load 0 initState).2.tasks.length = 1 ∧
    (load 0 initState).1 = some 0 ∧
    loadAll [1, 2, 300000] (load 0 initState).2 =
      ([some 0, some 0, some 0], (load 0 initState).2) := by
  have h := c2_single_flight initState 0 [1, 2, 300000] rfl (by decide)
  exact ⟨h.1, h.2.1, h.2.2⟩

/-- Counterexample to C2 as stated: a fetch starts at time 0 and is still
pending at time 300001; a `load()` then starts a second fetch, so two fetch
tasks are in flight at once and the two callers hold different tasks. -/
theorem c2_counterexample :
    pendingCount ((load 300001 ((load 0 initState).2)).2) = 2 ∧
    (load 0 initState).1 ≠ (load 300001 ((load 0 initState).2)).1 := by
  decide

/-- C3: a token exchange started at monotonic time `T` that succeeds with
lifetime `expires_in` seconds caches `expiresAt = T + expires_in * 1000`;
a `getToken()` at any `t < expiresAt` resolves to the cached token with no
state change (no network call), and at any `t ≥ expiresAt` — including
exactly `t = expiresAt` — a new exchange is started whose `refreshStart` is
the call time `t` itself (sampled before the request is issued). -/
theorem c3_token_expiry (cfg : AuthConfig) (st : AuthState) (T t : Nat)
    (info : TokenInfo) :
    ((exchangeSettle T 200 info st).2).cachedToken =
      some { token := info.access_token, expiresAt := T + info.expires_in * 1000 } ∧
    (∀ st' : AuthState,
      st'.cachedToken =
        some { token := info.access_token, expiresAt := T + info.expires_in * 1000 } →
      (t < T + info.expires_in * 1000 →
        tokenGetter t cfg st' = (TokenResult.cached info.access_token, st')) ∧
      (T + info.expires_in * 1000 ≤ t → ∀ g, cfg.grantToken = some g →
        tokenGetter t cfg st' =
          (TokenResult.startExchange t,
            { st' with exchangeCount := st'.exchangeCount + 1 }))) := by
  refine ⟨by simp [exchangeSettle], fun st' hc => ⟨fun hlt => ?_, fun hge g hg => ?_⟩⟩
  · simp [tokenGetter, hc, hlt]
  · simp [tokenGetter, hc, Nat.not_lt.mpr hge, tokenGetterUncached, hg]

/-- Witness for C3: an exchange started at `T = 7` with `expires_in = 60`
caches `expiresAt = 60007`; `getToken()` at 60006 serves the cache, at 60007
it starts a new exchange. -/
theorem c3_witness :
    ((exchangeSettle 7 200 { access_token := "tok", expires_in := 60 }
        initAuthState).2).cachedToken = some { token := "tok", expiresAt := 60007 } ∧
    tokenGetter 60006 authCfgEx
        { cachedToken := some { token := "tok", expiresAt := 60007 }, exchangeCount := 1 } =
      (TokenResult.cached "tok",
        { cachedToken := some { token := "tok", expiresAt := 60007 }, exchangeCount := 1 }) ∧
    tokenGetter 60007 authCfgEx
        { cachedToken := some { token := "tok", expiresAt := 60007 }, exchangeCount := 1 } =
      (TokenResult.startExchange 60007,
        { cachedToken := some { token := "tok", expiresAt := 60007 }, exchangeCount := 2 }) := by
  have h1 := c3_token_expiry authCfgEx initAuthState 7 60006
    { access_token := "tok", expires_in := 60 }
  have h2 := c3_token_expiry authCfgEx initAuthState 7 60007
    { access_token := "tok", expires_in := 60 }
  refine ⟨by simpa using h1.1, ?_, ?_⟩
  · simpa using (h1.2 ⟨some ⟨"tok", 60007⟩, 1⟩ (by decide)).1 (by decide)
  · simpa using (h2.2 ⟨some ⟨"tok", 60007⟩, 1⟩ (by decide)).2 (by decide) "grant-jwt" rfl

/-- C9: a failed token exchange (any non-200 status) propagates the error and
leaves the state — in particular `cachedToken` and the exchange counter —
untouched, so no retry happens and the next `getToken()` with a configured
grant token and no cached token starts one fresh exchange. -/
theorem c9_exchange_fail (cfg : AuthConfig) (T status : Nat) (data : TokenInfo)
    (st : AuthState) (now : Nat) (h : status ≠ 200) :
    exchangeSettle T status data st =
      (Except.error "Failed to retrieve access token", st) ∧
    (∀ g, cfg.grantToken = some g → st.cachedToken = none →
      tokenGetter now cfg (exchangeSettle T status data st).2 =
        (TokenResult.startExchange now,
          { st with exchangeCount := st.exchangeCount + 1 })) := by
  have he : exchangeSettle T status data st =
      (Except.error "Failed to retrieve access token", st) := by
    simp [exchangeSettle, h]
  refine ⟨he, fun g hg hc => ?_⟩
  rw [he]
  simp [tokenGetter, hc, tokenGetterUncached, hg]

/-- Witness for C9: a 400 response from the token endpoint at `T = 3` leaves
the fresh auth state unchanged, and the next `getToken()` at time 10 starts a
fresh exchange. -/
theorem c9_witness :
    exchangeSettle 3 400 { access_token := "tok", expires_in := 60 } initAuthState =
      (Except.error "Failed to retrieve access token", initAuthState) ∧
    tokenGetter 10 authCfgEx
        (exchangeSettle 3 400 { access_token := "tok", expires_in := 60 } initAuthState).2 =
      (TokenResult.startExchange 10, { cachedToken := none, exchangeCount := 1 }) := by
  have h := c9_exchange_fail authCfgEx 3 400 { access_token := "tok", expires_in := 60 }
    initAuthState 10 (by norm_num)
  exact ⟨h.1, h.2 "grant-jwt" rfl rfl⟩

/-- C4: when `update(model)` is called with a `userid` different from the
stored one, exactly one `UserChanged` event is appended, carrying
`initialLoad = true` iff the previous model had no CSRF token and carrying
the new `userid`; in that case, if no authority is configured
`auth.clearCache()` is invoked once, and the error-reporting user identity is
set to the new `userid` (`none` clears it). With an unchanged `userid` no
`UserChanged` event is emitted. -/
theorem c4_user_changed (cfg : Config) (m : SessionModel) (now : Nat)
    (s : SessState) :
    (m.userid ≠ s.session.userid →
      ((update cfg m now s).2).events.filter SEvent.isUserChanged =
        s.events.filter SEvent.isUserChanged ++
          [SEvent.userChanged s.session.csrf.isNone m.userid] ∧
      (cfg.authority = none →
        ((update cfg m now s).2).authClearCount = s.authClearCount + 1) ∧
      ((update cfg m now s).2).ravenUser = m.userid) ∧
    (m.userid = s.session.userid →
      ((update cfg m now s).2).events.filter SEvent.isUserChanged =
        s.events.filter SEvent.isUserChanged ∧
      ((update cfg m now s).2).authClearCount = s.authClearCount) := by
  constructor
  · intro hne
    refine ⟨?_, fun ha => ?_, ?_⟩
    · by_cases hg : m.groups = s.session.groups <;>
        simp [update_eq, hne, hg, SEvent.isUserChanged, SEvent.isGroupsChanged]
    · simp [update_eq, hne, ha]
    · simp [update_eq, hne]
  · intro heq
    constructor
    · by_cases hg : m.groups = s.session.groups <;>
        simp [update_eq, heq, hg, SEvent.isUserChanged, SEvent.isGroupsChanged]
    · simp [update_eq, heq]

/-- Witness for C4: updating `sWarm` (user `acct:u1`, CSRF present) with
`mEx` (user `acct:u2`) under a no-authority configuration emits one
`UserChanged` with `initialLoad = false`, bumps the clear-cache counter and
points the error reporter at the new user; re-updating with the same user
emits nothing. -/
theorem c4_witness :
    ((update cfgEx mEx 9 sWarm).2).events.filter SEvent.isUserChanged =
      [SEvent.userChanged false (some "acct:u2")] ∧
    ((update cfgEx mEx 9 sWarm).2).authClearCount = 1 ∧
    ((update cfgEx mEx 9 sWarm).2).ravenUser = some "acct:u2" ∧
    ((update cfgEx { userid := some "acct:u1" } 9 sWarm).2).events.filter
      SEvent.isUserChanged = [] := by
  have h1 := c4_user_changed cfgEx mEx 9 sWarm
  have h2 := c4_user_changed cfgEx { userid := some "acct:u1" } 9 sWarm
  obtain ⟨he, hc, hr⟩ := h1.1 (by decide)
  refine ⟨by simpa using he, by simpa using hc rfl, hr, ?_⟩
  rw [(h2.2 (by decide)).1]
  rfl

/-- C5: when the fetch task backing `load()` finally fails, the cached
timestamp is cleared, the task rejects (propagating the failure to every
caller holding it), the session data in the store is untouched, and the next
`load()` call starts a fresh fetch task. -/
theorem c5_fetch_fail (id : Nat) (s : SessState) (now : Nat)
    (h : s.tasks[id]? = some TaskStatus.pending) :
    (fetchFail id s).lastLoadTime = none ∧
    (fetchFail id s).tasks[id]? = some TaskStatus.rejected ∧
    (fetchFail id s).session = s.session ∧
    (fetchFail id s).headers = s.headers ∧
    load now (fetchFail id s) = startFetch now (fetchFail id s) ∧
    (load now (fetchFail id s)).2.tasks.length = s.tasks.length + 1 := by
  have hid : id < s.tasks.length := by
    by_contra hn
    rw [List.getElem?_eq_none (Nat.le_of_not_lt hn)] at h
    exact Option.noConfusion h
  refine ⟨rfl, ?_, rfl, rfl, ?_, ?_⟩
  · simp [fetchFail, List.getElem?_set_self (by simpa using hid)]
  · exact load_fresh_none now _ rfl
  · rw [load_fresh_none now _ rfl]
    simp [startFetch, fetchFail]

/-- Witness for C5: failing the single pending fetch of a one-task state
clears the timestamp, rejects task 0, keeps the stored session, and a load
at time 7 starts fetch task 1. -/
theorem c5_witness :
    (fetchFail 0 (load 0 initState).2).lastLoadTime = none ∧
    (fetchFail 0 (load 0 initState).2).tasks[0]? = some TaskStatus.rejected ∧
    (fetchFail 0 (load 0 initState).2).session = (load 0 initState).2.session ∧
    (load 7 (fetchFail 0 (load 0 initState).2)).2.tasks.length = 2 := by
  have h := c5_fetch_fail 0 (load 0 initState).2 7 (by decide)
  exact ⟨h.1, h.2.1, h.2.2.1, h.2.2.2.2.2⟩

/-- Counterexample to C6 as stated: with a warm cache (timestamp 5), a failed
`logout()` leaves `lastLoadTime` at `some 5` — it is not reset — and a
`load()` right after (time 6) still returns the cached task instead of
retrying. -/
theorem c6_counterexample :
    (logoutFail sWarm).lastLoadTime = some 5 ∧
    (logoutFail sWarm).lastLoadTime ≠ none ∧
    load 6 (logoutFail sWarm) = ((logoutFail sWarm).lastLoad, logoutFail sWarm) := by
  decide

/-- C6 (amended): when `logout()`'s network call fails, the component flashes
the generic `'Log out failed'` notice and re-throws, leaving all of its state
— in particular the cache timestamp — unchanged; on success it instructs the
auth collaborator to clear its cached token. (The unamended claim also had
the failure path reset the cache timestamp; the code's `catch` handler does
not touch it.) -/
theorem c6_logout (cfg : Config) (d : RespData) (status now : Nat)
    (s : SessState) :
    (logoutFail s).flashes = s.flashes ++ [("error", "Log out failed")] ∧
    (logoutFail s).lastLoadTime = s.lastLoadTime ∧
    (logoutFail s).lastLoad = s.lastLoad ∧
    (logoutFail s).session = s.session ∧
    (logoutFail s).headers = s.headers ∧
    (logoutFail s).authClearCount = s.authClearCount ∧
    (logoutSuccess cfg d status now s).authClearCount =
      ((process cfg d status now s).2).authClearCount + 1 := by
  exact ⟨rfl, rfl, rfl, rfl, rfl, rfl, rfl⟩

/-- C7: response processing yields no model for any status outside
`[200, 500)`, leaving the state untouched; for a status in `[200, 500)` it
lifts the model (`data.model` defaulting to the empty model, `errors` and
`reason` merged on when present), appends every flash message in kind order
then sequence order, and passes the model through `update`, returning
`update`'s result. -/
theorem c7_process (cfg : Config) (d : RespData) (status now : Nat)
    (s : SessState) :
    (status < 200 ∨ 500 ≤ status → process cfg d status now s = (none, s)) ∧
    (200 ≤ status → status < 500 →
      process cfg d status now s =
        (some (liftModel d),
          (update cfg (liftModel d) now
            { s with flashes := s.flashes ++ flashSeq d.flash }).2) ∧
      (process cfg d status now s).2.flashes = s.flashes ++ flashSeq d.flash) ∧
    (∀ e, d.errors = some e → (liftModel d).errors = some e) ∧
    (∀ r, d.reason = some r → (liftModel d).reason = some r) ∧
    (d.model = none → d.errors = none → d.reason = none →
      liftModel d = emptySessionModel) ∧
    (∀ mo, d.model = some mo →
      (liftModel d).userid = mo.userid ∧ (liftModel d).csrf = mo.csrf ∧
      (liftModel d).groups = mo.groups) := by
  have hnot : ∀ (h1 : 200 ≤ status) (h2 : status < 500),
      ¬(status < 200 ∨ 500 ≤ status) := by omega
  refine ⟨fun h => by simp [process, h], fun h1 h2 => ?_, fun e he => ?_,
    fun r hr => ?_, fun hm he hr => ?_, fun mo hmo => ?_⟩
  · constructor
    · simp [process, hnot h1 h2, update_eq]
    · simp [process, hnot h1 h2, update_eq]
  · rcases hr : d.reason with _ | r <;> simp [liftModel, he, hr]
  · simp [liftModel, hr]
  · simp [liftModel, hm, he, hr]
  · rcases he : d.errors with _ | e <;> rcases hr : d.reason with _ | r <;>
      simp [liftModel, hmo, he, hr]

/-- Witness for C7: a 502 yields no model and no state change; a 200 carrying
`{model: {userid}, errors, reason, flash: {error: [msg1, msg2]}}` fires the
two error notices in order and returns the merged model through `update`. -/
theorem c7_witness :
    process cfgEx { model := some { userid := some "acct:u1" } } 502 3 initState =
      (none, initState) ∧
    (process cfgEx
        { model := some { userid := some "acct:u1" },
          errors := some ["bad"],
          reason := some "why",
          flash := [("error", ["m1", "m2"])] } 200 3 initState).2.flashes =
      [("error", "m1"), ("error", "m2")] ∧
    liftModel
        { model := some { userid := some "acct:u1" },
          errors := some ["bad"],
          reason := some "why",
          flash := [("error", ["m1", "m2"])] } =
      { userid := some "acct:u1", errors := some ["bad"], reason := some "why" } := by
  have h1 := c7_process cfgEx { model := some { userid := some "acct:u1" } }
    502 3 initState
  have h2 := c7_process cfgEx
    { model := some { userid := some "acct:u1" },
      errors := some ["bad"],
      reason := some "why",
      flash := [("error", ["m1", "m2"])] } 200 3 initState
  refine ⟨h1.1 (by omega), ?_, ?_⟩
  · have := (h2.2.1 (by omega) (by omega)).2
    simpa [flashSeq] using this
  · have he := h2.2.2.1 ["bad"] rfl
    have hr := h2.2.2.2.1 "why" rfl
    have hmo := h2.2.2.2.2.2 { userid := some "acct:u1" } rfl
    obtain ⟨m1, m2, m3⟩ := hmo
    rcases hlift : liftModel
        { model := some { userid := some "acct:u1" },
          errors := some ["bad"],
          reason := some "why",
          flash := [("error", ["m1", "m2"])] } with ⟨u, c, g, e, r⟩
    rw [hlift] at he hr m1 m2 m3
    simp_all

/-- C8: `update(model)` emits a `GroupsChanged` event iff `model.groups`
differs from the stored groups under deep, order-sensitive value equality
(the event carries `initialLoad`); equal groups in the same order emit
nothing. -/
theorem c8_groups_changed (cfg : Config) (m : SessionModel) (now : Nat)
    (s : SessState) :
    (m.groups = s.session.groups →
      ((update cfg m now s).2).events.filter SEvent.isGroupsChanged =
        s.events.filter SEvent.isGroupsChanged) ∧
    (m.groups ≠ s.session.groups →
      ((update cfg m now s).2).events.filter SEvent.isGroupsChanged =
        s.events.filter SEvent.isGroupsChanged ++
          [SEvent.groupsChanged s.session.csrf.isNone]) := by
  constructor
  · intro hg
    by_cases hu : m.userid = s.session.userid <;>
      simp [update_eq, hu, hg, SEvent.isUserChanged, SEvent.isGroupsChanged]
  · intro hg
    by_cases hu : m.userid = s.session.userid <;>
      simp [update_eq, hu, hg, SEvent.isUserChanged, SEvent.isGroupsChanged]

/-- Witness for C8: with stored groups `[g1, g2]`, an update carrying the
value-equal list `[g1, g2]` emits no `GroupsChanged`, while the same elements
in the order `[g2, g1]` emit exactly one. -/
theorem c8_witness :
    ((update cfgEx mGroupsSame 9 sGroups).2).events.filter
      SEvent.isGroupsChanged = [] ∧
    ((update cfgEx mGroupsReord 9 sGroups).2).events.filter
      SEvent.isGroupsChanged = [SEvent.groupsChanged false] := by
  have h1 := (c8_groups_changed cfgEx mGroupsSame 9 sGroups).1 (by decide)
  have h2 := (c8_groups_changed cfgEx mGroupsReord 9 sGroups).2 (by decide)
  constructor
  · rw [h1]; rfl
  · rw [h2]; rfl

/-- C10: across every operation of the session service, the header map is
mutated only when the operation feeds `update` a model whose `csrf` is
present, and then only by writing the CSRF header entry (`opCsrf` names that
token); every other header key reads the same before and after, and a CSRF
header entry once present is never removed by any operation — logout and
token-less updates included. -/
theorem c10_headers_frame (cfg : Config) (op : Op) (s : SessState) :
    ((applyOp cfg op s).headers =
      match opCsrf op with
      | none => s.headers
      | some c => setHeader cfg.xsrfHeaderName c s.headers) ∧
    (∀ k, k ≠ cfg.xsrfHeaderName →
      getHeader k (applyOp cfg op s).headers = getHeader k s.headers) ∧
    (∀ v, getHeader cfg.xsrfHeaderName s.headers = some v →
      ∃ w, getHeader cfg.xsrfHeaderName (applyOp cfg op s).headers = some w) := by
  have hmain : (applyOp cfg op s).headers =
      match opCsrf op with
      | none => s.headers
      | some c => setHeader cfg.xsrfHeaderName c s.headers := by
    cases op with
    | opLoad now =>
      rcases h : s.lastLoadTime with _ | t
      · simp [applyOp, opCsrf, load_fresh_none now s h, startFetch]
      · by_cases hlt : CACHE_TTL < now - t
        · simp [applyOp, opCsrf, load_fresh_stale now t s h hlt, startFetch]
        · simp [applyOp, opCsrf, load_cached now t s h (Nat.not_lt.mp hlt)]
    | opFetchSuccess id m now =>
      rcases hc : m.csrf with _ | c <;>
        simp [applyOp, opCsrf, fetchSuccess, update_eq, hc]
    | opFetchFail id => simp [applyOp, opCsrf, fetchFail]
    | opUpdate m now =>
      rcases hc : m.csrf with _ | c <;> simp [applyOp, opCsrf, update_eq, hc]
    | opProcess d status now =>
      by_cases hst : status < 200 ∨ 500 ≤ status
      · simp [applyOp, opCsrf, process, hst]
      · rcases hc : (liftModel d).csrf with _ | c <;>
          simp [applyOp, opCsrf, process, hst, update_eq, hc]
    | opLogoutSuccess d status now =>
      by_cases hst : status < 200 ∨ 500 ≤ status
      · simp [applyOp, opCsrf, logoutSuccess, process, hst]
      · rcases hc : (liftModel d).csrf with _ | c <;>
          simp [applyOp, opCsrf, logoutSuccess, process, hst, update_eq, hc]
    | opLogoutFail => simp [applyOp, opCsrf, logoutFail]
    | opDismissSuccess m now =>
      rcases hc : m.csrf with _ | c <;>
        simp [applyOp, opCsrf, dismissSuccess, update_eq, hc]
  refine ⟨hmain, fun k hk => ?_, fun v hv => ?_⟩
  · rw [hmain]
    cases hoc : opCsrf op with
    | none => rfl
    | some c => exact getHeader_setHeader_ne cfg.xsrfHeaderName k c s.headers hk
  · rw [hmain]
    cases hoc : opCsrf op with
    | none => exact ⟨v, hv⟩
    | some c => exact ⟨c, getHeader_setHeader_self cfg.xsrfHeaderName c s.headers⟩

/-- Witness for C10: an `update` with `mEx` (CSRF `tok1`) writes exactly the
CSRF header entry of `sWarm`, a non-CSRF key reads unchanged, and a failed
logout leaves the header map untouched. -/
theorem c10_witness :
    (applyOp cfgEx (Op.opUpdate mEx 9) sWarm).headers =
      setHeader "X-XSRF-TOKEN" "tok1" sWarm.headers ∧
    getHeader "Content-Type" (applyOp cfgEx (Op.opUpdate mEx 9) sWarm).headers =
      getHeader "Content-Type" sWarm.headers ∧
    (applyOp cfgEx Op.opLogoutFail sWarm).headers = sWarm.headers := by
  have h1 := c10_headers_frame cfgEx (Op.opUpdate mEx 9) sWarm
  have h2 := c10_headers_frame cfgEx Op.opLogoutFail sWarm
  refine ⟨?_, h1.2.1 "Content-Type" (by decide), ?_⟩
  · simpa [opCsrf, mEx, cfgEx] using h1.1
  · simpa [opCsrf] using h2.1

end Client
